import Mathlib

/-!
Verification of the `common_game_server` Conan recipe (`conanfile.py`).

The recipe `CommonGameServerConan` is purely declarative: it declares three
boolean build options, a fixed runtime dependency, two conditional build-time
(test) dependencies, a toolchain-variable mapping, a build step sequence, and
packaging metadata.  We embed each method as an executable Lean function of
the option valuation and prove the spec's claims about them.
-/

namespace CommonGameServerConan

/-- A valuation of the recipe's three boolean options
(`options` / `default_options` in `conanfile.py`, lines 12-21). -/
structure Options where
  build_tests : Bool
  build_benchmarks : Bool
  build_services : Bool
  deriving DecidableEq, Repr

/-- The recipe's declared `options` table, line 12-16: each option name paired
with its list of admissible values `[True, False]`. -/
def optionsDecl : List (String × List Bool) :=
  [("build_tests", [true, false]),
   ("build_benchmarks", [true, false]),
   ("build_services", [true, false])]

/-- The recipe's `default_options` dictionary, lines 17-21. -/
def default_options : Options :=
  { build_tests := true, build_benchmarks := false, build_services := false }

/-- `requirements(self)`, lines 23-24: the declared runtime dependencies
(arguments of `self.requires`, in call order). -/
def requirements (_ : Options) : List String :=
  ["yaml-cpp/0.8.0"]

/-- `build_requirements(self)`, lines 26-30: the declared build-time test
dependencies (arguments of `self.test_requires`, in call order). -/
def build_requirements (o : Options) : List String :=
  (if o.build_tests then ["gtest/1.15.0"] else []) ++
    (if o.build_benchmarks then ["benchmark/1.9.1"] else [])

/-- `generate(self)`, lines 35-42: the toolchain variables assigned on
`tc.variables`, as (name, boolean value) pairs in assignment order. -/
def generate (o : Options) : List (String × Bool) :=
  [("CGS_BUILD_TESTS", o.build_tests),
   ("CGS_BUILD_BENCHMARKS", o.build_benchmarks),
   ("CGS_BUILD_SERVICES", o.build_services)]

/-- The three kinds of CMake invocation `build(self)` can make. -/
inductive BuildStep where
  | configure
  | build
  | test
  deriving DecidableEq, Repr

/-- `build(self)`, lines 44-49: the sequence of CMake invocations —
`cmake.configure()`, `cmake.build()`, then `cmake.test()` guarded by
`self.options.build_tests`. -/
def build (o : Options) : List BuildStep :=
  [BuildStep.configure, BuildStep.build] ++
    (if o.build_tests then [BuildStep.test] else [])

/-- The package metadata set by `package_info(self)`. -/
structure PackageInfo where
  properties : List (String × String)
  includedirs : List String
  deriving DecidableEq, Repr

/-- `package_info(self)`, lines 51-54: the `set_property` calls on
`self.cpp_info` (in call order) and the `includedirs` assignment. -/
def package_info (_ : Options) : PackageInfo :=
  { properties := [("cmake_file_name", "cgs"), ("cmake_target_name", "cgs::cgs_core")],
    includedirs := ["include"] }

/-- C1: for every valuation of the three options, `build()` invokes cmake
configure and then cmake build, and it invokes `cmake.test()` exactly when
`build_tests` is true, after the build step; when `build_tests` is false the
test step never occurs.  The full invocation sequence is the two-step
configure/build prefix, followed by the test step exactly when `build_tests`
holds. -/
theorem build_configure_then_build_then_test (o : Options) :
    build o =
      [BuildStep.configure, BuildStep.build] ++
        (if o.build_tests = true then [BuildStep.test] else []) ∧
    (BuildStep.test ∈ build o ↔ o.build_tests = true) := by
  rcases o with ⟨t, b, s⟩
  cases t <;> cases b <;> cases s <;> decide

/-- C2: the recipe declares exactly the three options `build_tests`,
`build_benchmarks`, `build_services`, each restricted to the boolean values
True and False, with defaults True, False, False respectively. -/
theorem options_three_booleans_with_defaults :
    optionsDecl.map Prod.fst = ["build_tests", "build_benchmarks", "build_services"] ∧
    optionsDecl.map Prod.snd = [[true, false], [true, false], [true, false]] ∧
    default_options.build_tests = true ∧
    default_options.build_benchmarks = false ∧
    default_options.build_services = false := by
  decide

/-- C3: for every valuation, `build_requirements()` declares `gtest/1.15.0`
exactly when `build_tests` is true and `benchmark/1.9.1` exactly when
`build_benchmarks` is true, and nothing else (the declared list is a sublist
of those two entries); in particular `build_services` adds no dependency. -/
theorem build_requirements_characterization (o : Options) :
    List.Sublist (build_requirements o) ["gtest/1.15.0", "benchmark/1.9.1"] ∧
    ("gtest/1.15.0" ∈ build_requirements o ↔ o.build_tests = true) ∧
    ("benchmark/1.9.1" ∈ build_requirements o ↔ o.build_benchmarks = true) := by
  rcases o with ⟨t, b, s⟩
  cases t <;> cases b <;> cases s <;> decide

/-- C4: for every valuation of the three options, `requirements()` declares
exactly one runtime dependency, `yaml-cpp/0.8.0`, unconditionally. -/
theorem requirements_single_yaml_cpp (o : Options) :
    requirements o = ["yaml-cpp/0.8.0"] :=
  rfl

/-- C5: for every valuation of the three options, `package_info()` exposes
exactly the include directory `"include"` and sets exactly the CMake file name
property `"cgs"` and the CMake target name property `"cgs::cgs_core"`. -/
theorem package_info_constant (o : Options) :
    (package_info o).includedirs = ["include"] ∧
    (package_info o).properties =
      [("cmake_file_name", "cgs"), ("cmake_target_name", "cgs::cgs_core")] :=
  ⟨rfl, rfl⟩

/-- C6: for every valuation, `generate()` sets exactly the three toolchain
variables `CGS_BUILD_TESTS`, `CGS_BUILD_BENCHMARKS`, `CGS_BUILD_SERVICES`,
and each equals the boolean value of the correspondingly named option; a
disabled option still yields an explicit `false` entry via `lookup`, never an
absent one. -/
theorem generate_sets_exactly_three_variables (o : Options) :
    (generate o).map Prod.fst =
      ["CGS_BUILD_TESTS", "CGS_BUILD_BENCHMARKS", "CGS_BUILD_SERVICES"] ∧
    (generate o).lookup "CGS_BUILD_TESTS" = some o.build_tests ∧
    (generate o).lookup "CGS_BUILD_BENCHMARKS" = some o.build_benchmarks ∧
    (generate o).lookup "CGS_BUILD_SERVICES" = some o.build_services := by
  rcases o with ⟨t, b, s⟩
  cases t <;> cases b <;> cases s <;> decide

/-- C7: noninterference of `build_services` — for any two option valuations
that agree on `build_tests` and `build_benchmarks` (hence differ at most in
`build_services`), the outputs of `requirements()`, `build_requirements()`,
`build()` and `package_info()` coincide, and the toolchain assignments of
`generate()` agree on their first two entries and on all variable names, so
only the value of the `CGS_BUILD_SERVICES` variable may differ. -/
theorem build_services_noninterference (o₁ o₂ : Options)
    (ht : o₁.build_tests = o₂.build_tests)
    (hb : o₁.build_benchmarks = o₂.build_benchmarks) :
    requirements o₁ = requirements o₂ ∧
    build_requirements o₁ = build_requirements o₂ ∧
    build o₁ = build o₂ ∧
    package_info o₁ = package_info o₂ ∧
    (generate o₁).take 2 = (generate o₂).take 2 ∧
    (generate o₁).map Prod.fst = (generate o₂).map Prod.fst := by
  rcases o₁ with ⟨t₁, b₁, s₁⟩
  rcases o₂ with ⟨t₂, b₂, s₂⟩
  simp only [Options.build_tests, Options.build_benchmarks] at ht hb
  subst ht; subst hb
  cases t₁ <;> cases b₁ <;> cases s₁ <;> cases s₂ <;> decide

/-- Witness for C7 at a concrete pair of valuations differing only in
`build_services`: the defaults, and the defaults with `build_services`
flipped on. -/
theorem build_services_noninterference_witness :
    requirements ⟨true, false, false⟩ = requirements ⟨true, false, true⟩ ∧
    build_requirements ⟨true, false, false⟩ = build_requirements ⟨true, false, true⟩ ∧
    build ⟨true, false, false⟩ = build ⟨true, false, true⟩ ∧
    package_info ⟨true, false, false⟩ = package_info ⟨true, false, true⟩ ∧
    (generate ⟨true, false, false⟩).take 2 = (generate ⟨true, false, true⟩).take 2 ∧
    (generate ⟨true, false, false⟩).map Prod.fst =
      (generate ⟨true, false, true⟩).map Prod.fst :=
  build_services_noninterference ⟨true, false, false⟩ ⟨true, false, true⟩ rfl rfl

end CommonGameServerConan
